import Mathlib

/-!
Verification of the Optima release-signing scripts (`sign_dmg.py` and
`generate_sparkle_keys.py`) against their specification.

Modelling conventions:
* Python byte strings and ASCII text strings are modelled as `List Nat`
  (one natural number per byte / code point, each below 256 for real data).
* The file system is an association list from path to byte content; writing
  prepends (the first binding for a path shadows older ones, which models
  overwrite-without-warning), reading takes the first binding.
* Pure library primitives with a fully determined byte-level contract
  (`base64.b64encode`, the PKCS8/PEM container for Ed25519 private keys)
  are implemented concretely.  The elliptic-curve primitives (signing,
  verification, public-key derivation) are parameters of the embedded
  functions; the theorems assume exactly the library contract the
  specification states for them (64-byte signatures, correct verification).
* Python exceptions are collapsed to the specification's error taxonomy:
  `PyErr.ioError` for `OSError`/`FileNotFoundError` (unreadable or
  unwritable files) and `PyErr.keyFormatError` for `ValueError`,
  `UnsupportedAlgorithm` and the `TypeError` raised when a non-Ed25519 key
  object is asked to sign with Ed25519's argument shape.
-/

/-- Byte strings: each element is one byte value. -/
abbrev Bytes := List Nat

/-- All elements of the list are genuine byte values (below 256). -/
def ValidBytes (bs : Bytes) : Prop := ∀ b ∈ bs, b < 256

instance (bs : Bytes) : Decidable (ValidBytes bs) := by
  unfold ValidBytes; infer_instance

/-- The standard base64 alphabet as ASCII byte values:
uppercase A-Z, lowercase a-z, digits 0-9, plus sign, slash.
This is the table used by Python's `base64.b64encode`. -/
def alphabetBytes : Bytes :=
  [65, 66, 67, 68, 69, 70, 71, 72, 73, 74, 75, 76, 77, 78, 79, 80,
   81, 82, 83, 84, 85, 86, 87, 88, 89, 90,
   97, 98, 99, 100, 101, 102, 103, 104, 105, 106, 107, 108, 109, 110,
   111, 112, 113, 114, 115, 116, 117, 118, 119, 120, 121, 122,
   48, 49, 50, 51, 52, 53, 54, 55, 56, 57, 43, 47]

/-- Encode one 6-bit group as its base64 alphabet byte. -/
def encByte (n : Nat) : Nat := alphabetBytes.getD n 65

/-- First index of a value in a list, if present. -/
def idxOf? (c : Nat) : Bytes → Option Nat
  | [] => none
  | a :: as => if a = c then some 0 else (idxOf? c as).map (· + 1)

/-- Decode one base64 alphabet byte back to its 6-bit group. -/
def decByte (c : Nat) : Option Nat := idxOf? c alphabetBytes

/-- Base64 encoding of a byte string, with `=` (byte 61) padding — the
byte-level behaviour of Python's `base64.b64encode`. -/
def b64encode : Bytes → Bytes
  | [] => []
  | [b0] => [encByte (b0 / 4), encByte (b0 % 4 * 16), 61, 61]
  | [b0, b1] => [encByte (b0 / 4), encByte (b0 % 4 * 16 + b1 / 16),
                 encByte (b1 % 16 * 4), 61]
  | b0 :: b1 :: b2 :: rest =>
      encByte (b0 / 4) :: encByte (b0 % 4 * 16 + b1 / 16) ::
      encByte (b1 % 16 * 4 + b2 / 64) :: encByte (b2 % 64) :: b64encode rest

/-- Base64 decoding (strict: full quads, canonical padding). -/
def b64decode : Bytes → Option Bytes
  | [] => some []
  | c0 :: c1 :: c2 :: c3 :: rest =>
    match decByte c0, decByte c1 with
    | some n0, some n1 =>
      if c2 = 61 then
        if c3 = 61 ∧ rest = [] ∧ n1 % 16 = 0 then
          some [n0 * 4 + n1 / 16]
        else none
      else
        match decByte c2 with
        | some n2 =>
          if c3 = 61 then
            if rest = [] ∧ n2 % 4 = 0 then
              some [n0 * 4 + n1 / 16, n1 % 16 * 16 + n2 / 4]
            else none
          else
            match decByte c3 with
            | some n3 =>
              match b64decode rest with
              | some bs =>
                  some ((n0 * 4 + n1 / 16) :: (n1 % 16 * 16 + n2 / 4) ::
                        (n2 % 4 * 64 + n3) :: bs)
              | none => none
            | none => none
        | none => none
    | _, _ => none
  | _ => none

/-- The specification's error taxonomy for the two CLIs.  `ioError` stands
for the Python OSError family (unreadable or unwritable file), and
`keyFormatError` for failures to obtain a usable Ed25519 key object from
the key bytes (ValueError, UnsupportedAlgorithm, or the TypeError raised
when a non-Ed25519 key object is driven through the Ed25519 sign call). -/
inductive PyErr
  | ioError
  | keyFormatError
  deriving DecidableEq, Repr

/-- A private key object as returned by the library loader: either a
usable Ed25519 key, carrying its 32-byte seed (the private scalar
material), or a key of some other algorithm. -/
inductive PrivKey
  | ed25519 (seed : Bytes)
  | otherAlg (der : Bytes)
  deriving DecidableEq, Repr

/-- ASCII bytes of the PEM armor opening line followed by a newline. -/
def pemHeader : Bytes :=
  [45, 45, 45, 45, 45, 66, 69, 71, 73, 78, 32, 80, 82, 73, 86, 65, 84, 69,
   32, 75, 69, 89, 45, 45, 45, 45, 45, 10]

/-- ASCII bytes of a newline, the PEM armor closing line, and a final
newline. -/
def pemFooter : Bytes :=
  [10, 45, 45, 45, 45, 45, 69, 78, 68, 32, 80, 82, 73, 86, 65, 84, 69, 32,
   75, 69, 89, 45, 45, 45, 45, 45, 10]

/-- The fixed 16-byte DER template that PKCS8 puts in front of a raw
32-byte Ed25519 seed: SEQUENCE of length 46, INTEGER version 0,
AlgorithmIdentifier SEQUENCE with the Ed25519 object identifier
(1.3.101.112), and an OCTET STRING wrapper of length 34 and 32. -/
def pkcs8Ed25519Template : Bytes :=
  [48, 46, 2, 1, 0, 48, 5, 6, 3, 43, 101, 112, 4, 34, 4, 32]

/-- Modelled from the spec: the library serializer
`private_bytes(Encoding.PEM, PrivateFormat.PKCS8, NoEncryption())` for a
generated Ed25519 private key, called in `generate_sparkle_keys.py` but
implemented in the external `cryptography` package.  For a 32-byte Ed25519
seed the PKCS8 DER body is 48 bytes, whose base64 form is exactly one
64-character line between the armor lines. -/
def privateBytesPem (seed : Bytes) : Bytes :=
  pemHeader ++ b64encode (pkcs8Ed25519Template ++ seed) ++ pemFooter

/-- Modelled from the spec: the library loader
`load_pem_private_key(data, password=None)` from the external
`cryptography` package, called in `sign_dmg.py`.  It strips the PEM
armor, base64-decodes the body, and inspects the PKCS8 DER: an exact
Ed25519 PKCS8 body yields an Ed25519 key object carrying the 32-byte
seed, another well-formed DER SEQUENCE yields a key object of another
algorithm, and anything else fails as a key-format error. -/
def load_pem_private_key (content : Bytes) : Except PyErr PrivKey :=
  if pemHeader.length + pemFooter.length ≤ content.length ∧
      content.take pemHeader.length = pemHeader ∧
      content.drop (content.length - pemFooter.length) = pemFooter then
    match b64decode ((content.drop pemHeader.length).take
        (content.length - pemHeader.length - pemFooter.length)) with
    | some der =>
      if der.take 16 = pkcs8Ed25519Template ∧ der.length = 48 then
        Except.ok (PrivKey.ed25519 (der.drop 16))
      else if der.head? = some 48 then
        Except.ok (PrivKey.otherAlg der)
      else Except.error PyErr.keyFormatError
    | none => Except.error PyErr.keyFormatError
  else Except.error PyErr.keyFormatError

/-- The file system: an association list from path to byte content.  The
first binding for a path is the current content; writing prepends, so a
write silently shadows (overwrites) any earlier binding. -/
abbrev FS := List (String × Bytes)

/-- Current content of a file, or `none` when the path cannot be read. -/
def FS.read (fs : FS) (p : String) : Option Bytes :=
  (fs.find? (fun e => e.1 == p)).map Prod.snd

/-- Overwrite (or create) a file. -/
def FS.write (fs : FS) (p : String) (c : Bytes) : FS := (p, c) :: fs

/-- Reading a file is a pure lookup; the file system is returned
unchanged, mirroring an `open(path, 'rb')` followed by `read()`. -/
def FS.readOp (fs : FS) (p : String) : Option Bytes × FS := (FS.read fs p, fs)

/-- Writing a file: succeeds and updates the file system when the path is
writable, otherwise fails with an OSError and leaves the file system
unchanged.  `writable` models the operating-system permission state. -/
def FS.writeOp (writable : String → Bool) (fs : FS) (p : String)
    (c : Bytes) : Except PyErr Unit × FS :=
  if writable p then (Except.ok (), FS.write fs p c)
  else (Except.error PyErr.ioError, fs)

/-- The `sign` method of a loaded private key object, specialized to the
argument shape `private_key.sign(file_data)` used by `sign_dmg.py`: an
Ed25519 key signs the message with the library's Ed25519 signing
primitive `edSign` (a parameter of the embedding, applied to the key's
seed and the exact message bytes); any other key type raises, which the
error taxonomy records as a key-format error. -/
def PrivKey.sign (edSign : Bytes → Bytes → Bytes) : PrivKey → Bytes →
    Except PyErr Bytes
  | PrivKey.ed25519 seed, m => Except.ok (edSign seed m)
  | PrivKey.otherAlg _, _ => Except.error PyErr.keyFormatError

/-- Embedding of `sign_file_with_ed25519(file_path, private_key_path)`
from `sign_dmg.py`: read the private key file, parse it with
`load_pem_private_key`, read the artifact file in full, sign exactly
those bytes, base64-encode the signature, and return it together with
the artifact's byte count.  The file system is threaded through every
file operation; errors abort with the corresponding exception. -/
def sign_file_with_ed25519 (edSign : Bytes → Bytes → Bytes) (fs : FS)
    (file_path private_key_path : String) :
    Except PyErr (Bytes × Nat) × FS :=
  match FS.readOp fs private_key_path with
  | (none, fs1) => (Except.error PyErr.ioError, fs1)
  | (some keyBytes, fs1) =>
    match load_pem_private_key keyBytes with
    | Except.error e => (Except.error e, fs1)
    | Except.ok private_key =>
      match FS.readOp fs1 file_path with
      | (none, fs2) => (Except.error PyErr.ioError, fs2)
      | (some file_data, fs2) =>
        match PrivKey.sign edSign private_key file_data with
        | Except.error e => (Except.error e, fs2)
        | Except.ok signature =>
          (Except.ok (b64encode signature, file_data.length), fs2)

/-- Embedding of `generate_sparkle_keys()` from
`generate_sparkle_keys.py`.  The library's key generation draws a fresh
32-byte seed from the secure random source; that randomness is the
`seed` parameter.  `derivePub` is the library's raw public-key
derivation (`public_key().public_bytes(Raw, Raw)`).  The function
serializes the private key to PEM/PKCS8, base64-encodes the raw public
key, writes the private-key file first and the public-key file second,
and returns the pair `(public_base64, private_pem)` exactly as the
Python `return` statement does. -/
def generate_sparkle_keys (derivePub : Bytes → Bytes) (seed : Bytes)
    (writable : String → Bool) (fs : FS) :
    Except PyErr (Bytes × Bytes) × FS :=
  let public_raw := derivePub seed
  let private_pem := privateBytesPem seed
  let public_base64 := b64encode public_raw
  match FS.writeOp writable fs "sparkle_private_key.pem" private_pem with
  | (Except.error e, fs1) => (Except.error e, fs1)
  | (Except.ok _, fs1) =>
    match FS.writeOp writable fs1 "sparkle_public_key.txt" public_base64 with
    | (Except.error e, fs2) => (Except.error e, fs2)
    | (Except.ok _, fs2) => (Except.ok (public_base64, private_pem), fs2)

/-- One line printed by either CLI, abstracted to its kind and payload:
the usage line, the informational lines of the signer's success path
(file name, size, signature, blank separator, appcast configuration
header, length line, edSignature line), the caught-exception diagnostic
line with the exception that produced it, and the generator's success
report including the public-key configuration line. -/
inductive Out
  | usage
  | fileLine (p : String)
  | sizeLine (n : Nat)
  | sigLine (s : Bytes)
  | blank
  | configHeader
  | lengthLine (n : Nat)
  | edSigLine (s : Bytes)
  | errLine (e : PyErr)
  | genSuccess
  | pubConfigLine (s : Bytes)
  deriving DecidableEq, Repr

/-- Embedding of the `__main__` block of `sign_dmg.py`: with an argument
vector other than exactly three entries (script name plus two
positional arguments) it prints the usage line and exits with status 1;
otherwise it runs `sign_file_with_ed25519` inside `try`, printing the
report lines on success, and on any exception printing the diagnostic
line — after which the script falls off the end, so the process exit
status is 0 on that path.  The result is the exit status, the printed
lines, and the final file system. -/
def sign_dmg_main (edSign : Bytes → Bytes → Bytes) (fs : FS)
    (argv : List String) : (Nat × List Out) × FS :=
  if argv.length ≠ 3 then ((1, [Out.usage]), fs)
  else
    let dmg_file := argv.getD 1 ""
    let key_file := argv.getD 2 ""
    match sign_file_with_ed25519 edSign fs dmg_file key_file with
    | (Except.ok (signature, size), fs1) =>
        ((0, [Out.fileLine dmg_file, Out.sizeLine size, Out.sigLine signature,
              Out.blank, Out.configHeader, Out.lengthLine size,
              Out.edSigLine signature]), fs1)
    | (Except.error e, fs1) => ((0, [Out.errLine e]), fs1)

/-- Embedding of the `__main__` block of `generate_sparkle_keys.py`: it
runs `generate_sparkle_keys()` inside `try`; on success the script ends
with status 0 after its informational prints (summarized by
`Out.genSuccess` and the public-key configuration line); every caught
exception prints a diagnostic and calls `exit(1)`. -/
def generate_keys_main (derivePub : Bytes → Bytes) (seed : Bytes)
    (writable : String → Bool) (fs : FS) : (Nat × List Out) × FS :=
  match generate_sparkle_keys derivePub seed writable fs with
  | (Except.ok res, fs1) =>
      ((0, [Out.genSuccess, Out.pubConfigLine res.1]), fs1)
  | (Except.error e, fs1) => ((1, [Out.errLine e]), fs1)

/-- The five artifact bytes of the spec's concrete scenario (b"hello"). -/
def helloBytes : Bytes := [104, 101, 108, 108, 111]

/-- A concrete 32-byte Ed25519 seed used to instantiate theorems. -/
def seedC : Bytes := List.replicate 32 7

/-- A concrete file system holding one artifact file and one PEM-encoded
Ed25519 private-key file. -/
def fsC : FS := [("app.dmg", helloBytes), ("key.pem", privateBytesPem seedC)]

/-- A stand-in signing primitive satisfying the 64-byte output contract,
used only to instantiate library-contract hypotheses at concrete inputs. -/
def constSig : Bytes → Bytes → Bytes := fun _ _ => List.replicate 64 0

/-- A stand-in signing primitive that echoes the message, used to
instantiate collision-freedom hypotheses at concrete inputs. -/
def echoSig : Bytes → Bytes → Bytes := fun _ m => m

/-- A stand-in verifier matching `echoSig`, used to instantiate the
verifier-contract hypotheses at concrete inputs. -/
def eqVerify : Bytes → Bytes → Bytes → Bool := fun _ m s => m == s

/-- A stand-in raw public-key derivation (the identity), used to
instantiate generator theorems at concrete inputs. -/
def idPub : Bytes → Bytes := fun s => s

/-- Permission state in which every path is writable. -/
def allWritable : String → Bool := fun _ => true

/-- Permission state in which only the private-key file is writable. -/
def privOnlyWritable : String → Bool :=
  fun p => p == "sparkle_private_key.pem"

theorem decByte_encByte : ∀ n < 64, decByte (encByte n) = some n := by decide

theorem encByte_ne_61 : ∀ n < 64, encByte n ≠ 61 := by decide

theorem encByte_mem (n : Nat) : encByte n ∈ alphabetBytes := by
  unfold encByte
  rcases Nat.lt_or_ge n alphabetBytes.length with h | h
  · rw [List.getD_eq_getElem _ 65 h]; exact List.getElem_mem h
  · rw [List.getD_eq_default _ 65 h]; decide

theorem b64_roundtrip : ∀ bs : Bytes, ValidBytes bs →
    b64decode (b64encode bs) = some bs
  | [], _ => by simp [b64encode, b64decode]
  | [b0], h => by
      have hb0 : b0 < 256 := h b0 (by simp)
      have h0 : b0 / 4 < 64 := by omega
      have h1 : b0 % 4 * 16 < 64 := by omega
      have e1 : b0 % 4 * 16 % 16 = 0 := by omega
      have e2 : b0 / 4 * 4 + b0 % 4 * 16 / 16 = b0 := by omega
      simp [b64encode, b64decode, decByte_encByte _ h0, decByte_encByte _ h1,
            e1, e2]
      omega
  | [b0, b1], h => by
      have hb0 : b0 < 256 := h b0 (by simp)
      have hb1 : b1 < 256 := h b1 (by simp)
      have h0 : b0 / 4 < 64 := by omega
      have h1 : b0 % 4 * 16 + b1 / 16 < 64 := by omega
      have h2 : b1 % 16 * 4 < 64 := by omega
      have e1 : b1 % 16 * 4 % 4 = 0 := by omega
      have e2 : (b0 / 4) * 4 + (b0 % 4 * 16 + b1 / 16) / 16 = b0 := by omega
      have e3 : (b0 % 4 * 16 + b1 / 16) % 16 * 16 + b1 % 16 * 4 / 4 = b1 := by
        omega
      simp [b64encode, b64decode, decByte_encByte _ h0, decByte_encByte _ h1,
            decByte_encByte _ h2, encByte_ne_61 _ h2, e1, e2, e3]
      omega
  | [b0, b1, b2], h => by
      have hb0 : b0 < 256 := h b0 (by simp)
      have hb1 : b1 < 256 := h b1 (by simp)
      have hb2 : b2 < 256 := h b2 (by simp)
      have h0 : b0 / 4 < 64 := by omega
      have h1 : b0 % 4 * 16 + b1 / 16 < 64 := by omega
      have h2 : b1 % 16 * 4 + b2 / 64 < 64 := by omega
      have h3 : b2 % 64 < 64 := by omega
      have e1 : (b0 / 4) * 4 + (b0 % 4 * 16 + b1 / 16) / 16 = b0 := by omega
      have e2 : (b0 % 4 * 16 + b1 / 16) % 16 * 16 +
          (b1 % 16 * 4 + b2 / 64) / 4 = b1 := by omega
      have e3 : (b1 % 16 * 4 + b2 / 64) % 4 * 64 + b2 % 64 = b2 := by omega
      simp [b64encode, b64decode, decByte_encByte _ h0, decByte_encByte _ h1,
            decByte_encByte _ h2, decByte_encByte _ h3,
            encByte_ne_61 _ h2, encByte_ne_61 _ h3, e1, e2, e3]
  | b0 :: b1 :: b2 :: c :: rest, h => by
      have hb0 : b0 < 256 := h b0 (by simp)
      have hb1 : b1 < 256 := h b1 (by simp)
      have hb2 : b2 < 256 := h b2 (by simp)
      have h0 : b0 / 4 < 64 := by omega
      have h1 : b0 % 4 * 16 + b1 / 16 < 64 := by omega
      have h2 : b1 % 16 * 4 + b2 / 64 < 64 := by omega
      have h3 : b2 % 64 < 64 := by omega
      have e1 : (b0 / 4) * 4 + (b0 % 4 * 16 + b1 / 16) / 16 = b0 := by omega
      have e2 : (b0 % 4 * 16 + b1 / 16) % 16 * 16 +
          (b1 % 16 * 4 + b2 / 64) / 4 = b1 := by omega
      have e3 : (b1 % 16 * 4 + b2 / 64) % 4 * 64 + b2 % 64 = b2 := by omega
      have ih := b64_roundtrip (c :: rest)
        (fun b hb => h b (by simp at hb ⊢; tauto))
      simp [b64encode, b64decode, decByte_encByte _ h0, decByte_encByte _ h1,
            decByte_encByte _ h2, decByte_encByte _ h3,
            encByte_ne_61 _ h2, encByte_ne_61 _ h3, e1, e2, e3, ih]

theorem b64encode_inj {bs bs' : Bytes} (h : ValidBytes bs) (h' : ValidBytes bs')
    (he : b64encode bs = b64encode bs') : bs = bs' := by
  have r := b64_roundtrip bs h
  have r' := b64_roundtrip bs' h'
  rw [he, r'] at r
  exact (Option.some.inj r).symm

theorem b64encode_mem : ∀ bs : Bytes, ∀ c ∈ b64encode bs,
    c ∈ alphabetBytes ∨ c = 61
  | [], c => by simp [b64encode]
  | [b0], c => by
      simp [b64encode]
      rintro (rfl | rfl | rfl | rfl) <;> simp [encByte_mem]
  | [b0, b1], c => by
      simp [b64encode]
      rintro (rfl | rfl | rfl | rfl) <;> simp [encByte_mem]
  | b0 :: b1 :: b2 :: rest, c => by
      simp [b64encode]
      rintro (rfl | rfl | rfl | rfl | hm)
      · simp [encByte_mem]
      · simp [encByte_mem]
      · simp [encByte_mem]
      · simp [encByte_mem]
      · exact b64encode_mem rest c hm

/-- A base64-encoded byte string never contains a newline byte:
the encoding is a single line of text. -/
theorem newline_not_mem_b64encode (bs : Bytes) : 10 ∉ b64encode bs := by
  intro hm
  rcases b64encode_mem bs 10 hm with h | h
  · revert h; decide
  · exact absurd h (by decide)

theorem validBytes_append {l1 l2 : Bytes} (h1 : ValidBytes l1)
    (h2 : ValidBytes l2) : ValidBytes (l1 ++ l2) := by
  intro b hb
  rcases List.mem_append.mp hb with h | h
  · exact h1 b h
  · exact h2 b h

/-- Serializing a 32-byte Ed25519 seed to the PEM/PKCS8 container and
loading it back recovers exactly the same 32-byte seed. -/
theorem load_pem_roundtrip (seed : Bytes) (hlen : seed.length = 32)
    (hv : ValidBytes seed) :
    load_pem_private_key (privateBytesPem seed) =
      Except.ok (PrivKey.ed25519 seed) := by
  have hder_v : ValidBytes (pkcs8Ed25519Template ++ seed) :=
    validBytes_append (by decide) hv
  have hderlen : (pkcs8Ed25519Template ++ seed).length = 48 := by
    simp [pkcs8Ed25519Template, hlen]
  unfold load_pem_private_key privateBytesPem
  rw [List.append_assoc]
  set b := b64encode (pkcs8Ed25519Template ++ seed) with hb
  have hc1 : (pemHeader ++ (b ++ pemFooter)).take pemHeader.length =
      pemHeader := List.take_left _ _
  have hdrop : (pemHeader ++ (b ++ pemFooter)).drop pemHeader.length =
      b ++ pemFooter := List.drop_left _ _
  have hlen3 : (pemHeader ++ (b ++ pemFooter)).length =
      pemHeader.length + b.length + pemFooter.length := by
    simp only [List.length_append]
    omega
  have hc3 : (pemHeader ++ (b ++ pemFooter)).drop
      ((pemHeader ++ (b ++ pemFooter)).length - pemFooter.length) =
      pemFooter := by
    have h2 : (pemHeader ++ (b ++ pemFooter)).length - pemFooter.length =
        (pemHeader ++ b).length := by
      simp only [List.length_append]
      omega
    rw [h2, ← List.append_assoc, List.drop_left]
  have hbody : ((pemHeader ++ (b ++ pemFooter)).drop pemHeader.length).take
      ((pemHeader ++ (b ++ pemFooter)).length - pemHeader.length -
        pemFooter.length) = b := by
    rw [hdrop]
    have h3 : (pemHeader ++ (b ++ pemFooter)).length - pemHeader.length -
        pemFooter.length = b.length := by
      simp only [List.length_append]
      omega
    rw [h3, List.take_left]
  rw [if_pos ⟨by rw [hlen3]; omega, hc1, hc3⟩, hbody, hb,
      b64_roundtrip _ hder_v]
  dsimp only
  rw [if_pos ⟨List.take_left'
        (show pkcs8Ed25519Template.length = 16 by decide), hderlen⟩,
      List.drop_left' (show pkcs8Ed25519Template.length = 16 by decide)]

theorem FS.read_write (fs : FS) (p : String) (c : Bytes) :
    FS.read (FS.write fs p c) p = some c := by
  simp [FS.read, FS.write, List.find?]

theorem FS.read_write_ne (fs : FS) (p q : String) (c : Bytes) (h : p ≠ q) :
    FS.read (FS.write fs p c) q = FS.read fs q := by
  have hb : (p == q) = false := beq_eq_false_iff_ne.mpr h
  simp [FS.read, FS.write, List.find?, hb]

/-- C1: for every artifact file and every file holding a valid Ed25519
private key, `sign_file_with_ed25519` returns the base64 encoding of the
Ed25519 signature computed over exactly the full byte content of the
artifact — the signing primitive is applied to the unmodified file bytes,
with no pre-hashing and no extra domain separation in the script —
together with an integer equal to the exact byte count of the artifact;
under the library contract that Ed25519 signatures are 64 bytes long, the
encoded signature is that of a 64-byte signature. -/
theorem C1_sign_signature_and_exact_length
    (edSign : Bytes → Bytes → Bytes)
    (hlen64 : ∀ k m, (edSign k m).length = 64)
    (fs : FS) (fp kp : String) (seed keyBytes data : Bytes)
    (hk : FS.read fs kp = some keyBytes)
    (hload : load_pem_private_key keyBytes = Except.ok (PrivKey.ed25519 seed))
    (hf : FS.read fs fp = some data) :
    (sign_file_with_ed25519 edSign fs fp kp).1 =
        Except.ok (b64encode (edSign seed data), data.length) ∧
      (edSign seed data).length = 64 := by
  refine ⟨?_, hlen64 seed data⟩
  simp [sign_file_with_ed25519, FS.readOp, hk, hload, hf, PrivKey.sign]

/-- Witness for C1 at the concrete artifact b"hello": the hypotheses hold
for the fixture file system and the reported length is 5. -/
theorem C1_witness :
    (sign_file_with_ed25519 constSig fsC "app.dmg" "key.pem").1 =
        Except.ok (b64encode (constSig seedC helloBytes), 5) ∧
      (constSig seedC helloBytes).length = 64 :=
  C1_sign_signature_and_exact_length constSig
    (fun _ _ => by simp [constSig])
    fsC "app.dmg" "key.pem" seedC (privateBytesPem seedC) helloBytes
    (by rfl)
    (load_pem_roundtrip seedC (by rfl) (by decide))
    (by rfl)

/-- C9: the sign operation mutates neither input and writes no files:
the file system component returned by `sign_file_with_ed25519` is exactly
the input file system, whether the call succeeds or fails, so the
artifact file and the private-key file keep their byte content. -/
theorem C9_sign_is_read_only (edSign : Bytes → Bytes → Bytes) (fs : FS)
    (fp kp : String) :
    (sign_file_with_ed25519 edSign fs fp kp).2 = fs := by
  unfold sign_file_with_ed25519 FS.readOp
  repeat' split
  all_goals simp_all


theorem generate_ok (derivePub : Bytes → Bytes) (seed : Bytes)
    (writable : String → Bool) (fs : FS)
    (hw1 : writable "sparkle_private_key.pem" = true)
    (hw2 : writable "sparkle_public_key.txt" = true) :
    generate_sparkle_keys derivePub seed writable fs =
      (Except.ok (b64encode (derivePub seed), privateBytesPem seed),
        FS.write (FS.write fs "sparkle_private_key.pem" (privateBytesPem seed))
          "sparkle_public_key.txt" (b64encode (derivePub seed))) := by
  simp [generate_sparkle_keys, FS.writeOp, hw1, hw2]

/-- C2: after a successful generation, the public-key file contains
exactly the base64 text of the raw public key produced at generation time
(no trailing metadata), that text is a single line (it contains no
newline byte), and base64-decoding it yields exactly the 32 raw
public-key bytes. -/
theorem C2_public_key_file_is_single_line_base64
    (derivePub : Bytes → Bytes) (seed : Bytes)
    (writable : String → Bool) (fs : FS)
    (hw1 : writable "sparkle_private_key.pem" = true)
    (hw2 : writable "sparkle_public_key.txt" = true)
    (hlen : (derivePub seed).length = 32)
    (hv : ValidBytes (derivePub seed)) :
    FS.read (generate_sparkle_keys derivePub seed writable fs).2
        "sparkle_public_key.txt" = some (b64encode (derivePub seed)) ∧
      b64decode (b64encode (derivePub seed)) = some (derivePub seed) ∧
      (derivePub seed).length = 32 ∧
      10 ∉ b64encode (derivePub seed) := by
  refine ⟨?_, b64_roundtrip _ hv, hlen, newline_not_mem_b64encode _⟩
  rw [generate_ok derivePub seed writable fs hw1 hw2]
  exact FS.read_write _ _ _

/-- Witness for C2 at a concrete seed and an initially empty file
system. -/
theorem C2_witness :
    FS.read (generate_sparkle_keys idPub seedC allWritable []).2
        "sparkle_public_key.txt" = some (b64encode (idPub seedC)) ∧
      b64decode (b64encode (idPub seedC)) = some (idPub seedC) ∧
      (idPub seedC).length = 32 ∧
      10 ∉ b64encode (idPub seedC) :=
  C2_public_key_file_is_single_line_base64 idPub seedC allWritable []
    rfl rfl (by rfl) (by decide)

/-- Counterexample for C5: at a concrete generation the first component
of the returned pair is the base64 public-key record and the second is
the serialized private-key record — not the order the claim states.  The
Python source returns `public_base64, private_pem.decode('ascii')`. -/
theorem C5_counterexample :
    (generate_sparkle_keys idPub seedC allWritable []).1 =
        Except.ok (b64encode seedC, privateBytesPem seedC) ∧
      b64encode seedC ≠ privateBytesPem seedC := by
  constructor
  · rfl
  · decide

/-- C5 amended: the generator returns the pair in the order (public-key
record, private-key record): the base64 public-key text first, the
PEM-serialized private key second. -/
theorem C5_amended_return_order (derivePub : Bytes → Bytes) (seed : Bytes)
    (writable : String → Bool) (fs : FS)
    (hw1 : writable "sparkle_private_key.pem" = true)
    (hw2 : writable "sparkle_public_key.txt" = true) :
    (generate_sparkle_keys derivePub seed writable fs).1 =
      Except.ok (b64encode (derivePub seed), privateBytesPem seed) := by
  rw [generate_ok derivePub seed writable fs hw1 hw2]

/-- Witness for the amended C5 at a concrete seed. -/
theorem C5_witness :
    (generate_sparkle_keys idPub seedC allWritable []).1 =
      Except.ok (b64encode (idPub seedC), privateBytesPem seedC) :=
  C5_amended_return_order idPub seedC allWritable [] rfl rfl

/-- C10: the generator writes the private-key file before the public-key
file: when the public-key file cannot be written the generation fails
with an IOError, yet the private-key file has already been created (or an
existing one overwritten); and when the private-key file itself cannot be
written, nothing has been written at all. -/
theorem C10_private_key_written_first (derivePub : Bytes → Bytes)
    (seed : Bytes) (writable : String → Bool) (fs : FS) :
    (writable "sparkle_private_key.pem" = true →
      writable "sparkle_public_key.txt" = false →
      (generate_sparkle_keys derivePub seed writable fs).1 =
          Except.error PyErr.ioError ∧
        FS.read (generate_sparkle_keys derivePub seed writable fs).2
          "sparkle_private_key.pem" = some (privateBytesPem seed)) ∧
    (writable "sparkle_private_key.pem" = false →
      (generate_sparkle_keys derivePub seed writable fs).2 = fs) := by
  refine ⟨fun h1 h2 => ⟨?_, ?_⟩, fun h1 => ?_⟩
  · simp [generate_sparkle_keys, FS.writeOp, h1, h2]
  · have hr := FS.read_write fs "sparkle_private_key.pem" (privateBytesPem seed)
    simp [generate_sparkle_keys, FS.writeOp, h1, h2, hr]
  · simp [generate_sparkle_keys, FS.writeOp, h1]

/-- Witness for C10: with only the private-key path writable, generation
fails with an IOError and the private-key file exists with the PEM
content. -/
theorem C10_witness :
    (generate_sparkle_keys idPub seedC privOnlyWritable []).1 =
        Except.error PyErr.ioError ∧
      FS.read (generate_sparkle_keys idPub seedC privOnlyWritable []).2
        "sparkle_private_key.pem" = some (privateBytesPem seedC) :=
  (C10_private_key_written_first idPub seedC privOnlyWritable []).1 rfl rfl

/-- C3: the private-key record round-trips — loading the PEM/PKCS8
container persisted by the Generator yields the identical 32-byte seed
(proved concretely for the modelled container) — and consequently, under
the spec's library contract that Ed25519 verification accepts signatures
made with the matching private key, the Signer run against the persisted
key file produces a signature that (after base64 decoding) verifies under
the public key produced at the same generation event. -/
theorem C3_private_key_record_roundtrips
    (edSign : Bytes → Bytes → Bytes)
    (edVerify : Bytes → Bytes → Bytes → Bool)
    (derivePub : Bytes → Bytes) (seed : Bytes)
    (writable : String → Bool) (fs : FS) (fp : String) (data : Bytes)
    (hseed : seed.length = 32) (hsv : ValidBytes seed)
    (hw1 : writable "sparkle_private_key.pem" = true)
    (hw2 : writable "sparkle_public_key.txt" = true)
    (hfp : fp ≠ "sparkle_private_key.pem")
    (hsigv : ValidBytes (edSign seed data))
    (hpv : ValidBytes (derivePub seed))
    (hver : edVerify (derivePub seed) data (edSign seed data) = true) :
    load_pem_private_key (privateBytesPem seed) =
        Except.ok (PrivKey.ed25519 seed) ∧
      (sign_file_with_ed25519 edSign
          (FS.write (generate_sparkle_keys derivePub seed writable fs).2
            fp data)
          fp "sparkle_private_key.pem").1 =
        Except.ok (b64encode (edSign seed data), data.length) ∧
      b64decode (b64encode (edSign seed data)) = some (edSign seed data) ∧
      b64decode (b64encode (derivePub seed)) = some (derivePub seed) ∧
      edVerify (derivePub seed) data (edSign seed data) = true := by
  have hload := load_pem_roundtrip seed hseed hsv
  refine ⟨hload, ?_, b64_roundtrip _ hsigv, b64_roundtrip _ hpv, hver⟩
  have hgen := generate_ok derivePub seed writable fs hw1 hw2
  rw [hgen]
  have hkey : FS.read
      (FS.write (FS.write (FS.write fs "sparkle_private_key.pem"
          (privateBytesPem seed))
        "sparkle_public_key.txt" (b64encode (derivePub seed))) fp data)
      "sparkle_private_key.pem" = some (privateBytesPem seed) := by
    rw [FS.read_write_ne _ _ _ _ hfp,
        FS.read_write_ne _ _ _ _ (by decide),
        FS.read_write]
  have hart : FS.read
      (FS.write (FS.write (FS.write fs "sparkle_private_key.pem"
          (privateBytesPem seed))
        "sparkle_public_key.txt" (b64encode (derivePub seed))) fp data)
      fp = some data := FS.read_write _ _ _
  simp [sign_file_with_ed25519, FS.readOp, hkey, hart, hload, PrivKey.sign]

/-- Witness for C3 at a concrete seed, artifact and echo primitives. -/
theorem C3_witness :
    load_pem_private_key (privateBytesPem seedC) =
        Except.ok (PrivKey.ed25519 seedC) ∧
      (sign_file_with_ed25519 echoSig
          (FS.write (generate_sparkle_keys idPub seedC allWritable []).2
            "app.dmg" helloBytes)
          "app.dmg" "sparkle_private_key.pem").1 =
        Except.ok (b64encode (echoSig seedC helloBytes),
          helloBytes.length) ∧
      b64decode (b64encode (echoSig seedC helloBytes)) =
        some (echoSig seedC helloBytes) ∧
      b64decode (b64encode (idPub seedC)) = some (idPub seedC) ∧
      eqVerify (idPub seedC) helloBytes (echoSig seedC helloBytes) = true :=
  C3_private_key_record_roundtrips echoSig eqVerify idPub seedC
    allWritable [] "app.dmg" helloBytes (by rfl) (by decide) rfl rfl
    (by decide) (by decide) (by decide) (by rfl)

/-- Counterexample for C4: invoking the signer CLI on a missing artifact
raises an error that is caught and reported, but the `except` branch of
`sign_dmg.py` contains no `sys.exit`, so the script falls off the end and
the process exits with status 0 — an error path exiting with status
zero. -/
theorem C4_counterexample :
    (sign_dmg_main constSig [] ["sign_dmg.py", "app.dmg", "key.pem"]).1 =
      (0, [Out.errLine PyErr.ioError]) := by rfl

/-- C4 amended: every error raised inside the key-generator CLI is
caught, reported with a diagnostic, and terminates with exit status 1,
and the signer CLI exits with status 1 on a wrong argument count; but an
error raised during the signing operation is caught and reported with a
diagnostic after which the signer process exits with status 0. -/
theorem C4_amended_error_exit_statuses :
    (∀ derivePub seed writable fs e fsE,
        generate_sparkle_keys derivePub seed writable fs =
          (Except.error e, fsE) →
        (generate_keys_main derivePub seed writable fs).1 =
          (1, [Out.errLine e])) ∧
    (∀ (edSign : Bytes → Bytes → Bytes) (fs : FS) (argv : List String),
        argv.length ≠ 3 →
        (sign_dmg_main edSign fs argv).1 = (1, [Out.usage])) ∧
    (∀ (edSign : Bytes → Bytes → Bytes) (fs : FS) (argv : List String)
        (e : PyErr) (fsE : FS), argv.length = 3 →
        sign_file_with_ed25519 edSign fs (argv.getD 1 "") (argv.getD 2 "") =
          (Except.error e, fsE) →
        (sign_dmg_main edSign fs argv).1 = (0, [Out.errLine e])) := by
  refine ⟨?_, ?_, ?_⟩
  · intro derivePub seed writable fs e fsE h
    simp [generate_keys_main, h]
  · intro edSign fs argv h
    simp [sign_dmg_main, h]
  · intro edSign fs argv e fsE h3 hs
    simp only [sign_dmg_main]
    rw [if_neg (by omega), hs]

/-- Witness for the amended C4: with no path writable, the generator CLI
reports the IOError and exits with status 1. -/
theorem C4_witness :
    (generate_keys_main idPub seedC (fun _ => false) []).1 =
      (1, [Out.errLine PyErr.ioError]) :=
  C4_amended_error_exit_statuses.1 idPub seedC (fun _ => false) []
    PyErr.ioError [] (by rfl)

theorem load_pem_error_kind (c : Bytes) (e : PyErr)
    (h : load_pem_private_key c = Except.error e) :
    e = PyErr.keyFormatError := by
  unfold load_pem_private_key at h
  repeat' split at h
  all_goals simp_all

/-- C6: the sign operation never returns a signature when its inputs are
unusable: an unreadable key file fails with an IOError; a key file whose
content is a corrupted container fails with a KeyFormatError; a key file
that parses as a private key of a type other than Ed25519 fails with a
KeyFormatError (the failure the source raises when driving a non-Ed25519
key object through the Ed25519 sign call); and an unreadable artifact
file with a loadable key fails with an IOError. -/
theorem C6_sign_error_classification (edSign : Bytes → Bytes → Bytes)
    (fs : FS) (fp kp : String) :
    (FS.read fs kp = none →
      (sign_file_with_ed25519 edSign fs fp kp).1 =
        Except.error PyErr.ioError) ∧
    (∀ keyBytes e, FS.read fs kp = some keyBytes →
      load_pem_private_key keyBytes = Except.error e →
      (sign_file_with_ed25519 edSign fs fp kp).1 =
        Except.error PyErr.keyFormatError) ∧
    (∀ keyBytes der data, FS.read fs kp = some keyBytes →
      load_pem_private_key keyBytes = Except.ok (PrivKey.otherAlg der) →
      FS.read fs fp = some data →
      (sign_file_with_ed25519 edSign fs fp kp).1 =
        Except.error PyErr.keyFormatError) ∧
    (∀ keyBytes k, FS.read fs kp = some keyBytes →
      load_pem_private_key keyBytes = Except.ok k →
      FS.read fs fp = none →
      (sign_file_with_ed25519 edSign fs fp kp).1 =
        Except.error PyErr.ioError) := by
  refine ⟨?_, ?_, ?_, ?_⟩
  · intro hk
    simp [sign_file_with_ed25519, FS.readOp, hk]
  · intro keyBytes e hk hl
    have he := load_pem_error_kind keyBytes e hl
    subst he
    simp [sign_file_with_ed25519, FS.readOp, hk, hl]
  · intro keyBytes der data hk hl hf
    simp [sign_file_with_ed25519, FS.readOp, hk, hl, hf, PrivKey.sign]
  · intro keyBytes k hk hl hf
    simp [sign_file_with_ed25519, FS.readOp, hk, hl, hf]

/-- Witness for C6: a one-byte key file is a corrupted container, and the
sign operation fails with the KeyFormatError. -/
theorem C6_witness :
    (sign_file_with_ed25519 constSig [("key.pem", [0])]
        "app.dmg" "key.pem").1 = Except.error PyErr.keyFormatError :=
  (C6_sign_error_classification constSig [("key.pem", [0])]
      "app.dmg" "key.pem").2.1 [0] PyErr.keyFormatError (by rfl) (by rfl)

/-- Counterexample for C7: invoking the signer with a nonexistent
artifact path while the key file is present but corrupt prints the
KeyFormatError diagnostic, not an IOError diagnostic, because the source
reads and parses the key file before opening the artifact. -/
theorem C7_counterexample :
    (sign_dmg_main constSig [("key.pem", [0])]
        ["sign_dmg.py", "missing.dmg", "key.pem"]).1 =
        (0, [Out.errLine PyErr.keyFormatError]) ∧
      Out.errLine PyErr.ioError ∉
        (sign_dmg_main constSig [("key.pem", [0])]
          ["sign_dmg.py", "missing.dmg", "key.pem"]).1.2 := by
  constructor
  · rfl
  · decide

/-- C7 amended: invoking the signer with an argument count other than two
positional arguments prints the usage line and exits with status 1.  With
a nonexistent artifact path the invocation always ends in a single caught
diagnostic and never produces a signature line; the diagnostic is the
IOError one whenever the key file is itself unreadable or loads as a
valid private key — when the key file is present but fails to load, the
KeyFormatError diagnostic is printed instead. -/
theorem C7_usage_and_missing_artifact (edSign : Bytes → Bytes → Bytes)
    (fs : FS) (argv : List String) :
    (argv.length ≠ 3 →
      (sign_dmg_main edSign fs argv).1 = (1, [Out.usage])) ∧
    (∀ s a k, argv = [s, a, k] → FS.read fs a = none →
      ((∃ e, (sign_dmg_main edSign fs argv).1 = (0, [Out.errLine e])) ∧
       (∀ sg, Out.sigLine sg ∉ (sign_dmg_main edSign fs argv).1.2) ∧
       (∀ sg, Out.edSigLine sg ∉ (sign_dmg_main edSign fs argv).1.2)) ∧
      (FS.read fs k = none →
        (sign_dmg_main edSign fs argv).1 =
          (0, [Out.errLine PyErr.ioError])) ∧
      (∀ keyBytes pk, FS.read fs k = some keyBytes →
        load_pem_private_key keyBytes = Except.ok pk →
        (sign_dmg_main edSign fs argv).1 =
          (0, [Out.errLine PyErr.ioError]))) := by
  constructor
  · intro h
    simp [sign_dmg_main, h]
  · rintro s a k rfl ha
    have step : ∀ e, sign_file_with_ed25519 edSign fs a k =
        (Except.error e, fs) →
        (sign_dmg_main edSign fs [s, a, k]).1 = (0, [Out.errLine e]) := by
      intro e he
      simp only [sign_dmg_main]
      rw [if_neg (by simp)]
      rw [show sign_file_with_ed25519 edSign fs
          (([s, a, k] : List String).getD 1 "")
          (([s, a, k] : List String).getD 2 "") =
          (Except.error e, fs) from he]
    have herr : ∃ e, sign_file_with_ed25519 edSign fs a k =
        (Except.error e, fs) := by
      cases hk : FS.read fs k with
      | none =>
        exact ⟨PyErr.ioError, by simp [sign_file_with_ed25519, FS.readOp, hk]⟩
      | some kb =>
        cases hl : load_pem_private_key kb with
        | error e =>
          exact ⟨e, by simp [sign_file_with_ed25519, FS.readOp, hk, hl]⟩
        | ok pk =>
          exact ⟨PyErr.ioError,
            by simp [sign_file_with_ed25519, FS.readOp, hk, hl, ha]⟩
    obtain ⟨e, he⟩ := herr
    have hmain := step e he
    have houts : (sign_dmg_main edSign fs [s, a, k]).1.2 =
        [Out.errLine e] := by rw [hmain]
    refine ⟨⟨⟨e, hmain⟩, ?_, ?_⟩, ?_, ?_⟩
    · intro sg
      rw [houts]
      simp
    · intro sg
      rw [houts]
      simp
    · intro hk
      exact step PyErr.ioError (by simp [sign_file_with_ed25519, FS.readOp, hk])
    · intro keyBytes pk hk hl
      exact step PyErr.ioError
        (by simp [sign_file_with_ed25519, FS.readOp, hk, hl, ha])

/-- Witness for the amended C7: a missing artifact with a well-formed key
file yields exactly the IOError diagnostic. -/
theorem C7_witness :
    (sign_dmg_main constSig [("key.pem", privateBytesPem seedC)]
        ["sign_dmg.py", "missing.dmg", "key.pem"]).1 =
      (0, [Out.errLine PyErr.ioError]) :=
  ((C7_usage_and_missing_artifact constSig
      [("key.pem", privateBytesPem seedC)]
      ["sign_dmg.py", "missing.dmg", "key.pem"]).2 "sign_dmg.py"
      "missing.dmg" "key.pem" rfl (by rfl)).2.2 (privateBytesPem seedC)
    (PrivKey.ed25519 seedC) (by rfl)
    (load_pem_roundtrip seedC (by rfl) (by decide))

/-- C8: for an artifact and a single-byte mutation of it, under the
spec's Ed25519 library contract — the signatures of the two messages
under the same key differ, and a correct verifier accepts the signature
over the original bytes while rejecting it over the mutated bytes — the
two artifacts are distinct files, the signer returns the base64 signature
over exactly each artifact's bytes, the two returned base64 signature
strings differ (base64 encoding is injective on byte strings), and the
verifier accepts the signature against the original artifact and rejects
it against the mutation. -/
theorem C8_single_byte_mutation_changes_signature
    (edSign : Bytes → Bytes → Bytes)
    (edVerify : Bytes → Bytes → Bytes → Bool)
    (derivePub : Bytes → Bytes) (seed : Bytes)
    (fs : FS) (fpA fpB kp : String) (keyBytes A B : Bytes) (i c : Nat)
    (hk : FS.read fs kp = some keyBytes)
    (hload : load_pem_private_key keyBytes =
      Except.ok (PrivKey.ed25519 seed))
    (hA : FS.read fs fpA = some A) (hB : FS.read fs fpB = some B)
    (hi : i < A.length) (hmut : B = A.set i c) (hc : c ≠ A.getD i 0)
    (hsv : ValidBytes (edSign seed A)) (hsv' : ValidBytes (edSign seed B))
    (hdiff : edSign seed A ≠ edSign seed B)
    (hacc : edVerify (derivePub seed) A (edSign seed A) = true)
    (hrej : edVerify (derivePub seed) B (edSign seed A) = false) :
    A ≠ B ∧
    (sign_file_with_ed25519 edSign fs fpA kp).1 =
        Except.ok (b64encode (edSign seed A), A.length) ∧
    (sign_file_with_ed25519 edSign fs fpB kp).1 =
        Except.ok (b64encode (edSign seed B), B.length) ∧
    b64encode (edSign seed A) ≠ b64encode (edSign seed B) ∧
    edVerify (derivePub seed) A (edSign seed A) = true ∧
    edVerify (derivePub seed) B (edSign seed A) = false := by
  have hne : A ≠ B := by
    intro hAB
    apply hc
    have hgd : B.getD i 0 = c := by
      rw [hmut, List.getD_eq_getElem _ _ (by simpa using hi)]
      exact List.getElem_set_self (by simpa using hi)
    rw [← hAB] at hgd
    exact hgd.symm
  refine ⟨hne, ?_, ?_, ?_, hacc, hrej⟩
  · simp [sign_file_with_ed25519, FS.readOp, hk, hload, hA, PrivKey.sign]
  · simp [sign_file_with_ed25519, FS.readOp, hk, hload, hB, PrivKey.sign]
  · intro he
    exact hdiff (b64encode_inj hsv hsv' he)

/-- Witness for C8 at the artifact b"hello", the mutation of its first
byte, and echo primitives satisfying the contract hypotheses. -/
theorem C8_witness :
    helloBytes ≠ helloBytes.set 0 105 ∧
    (sign_file_with_ed25519 echoSig
        [("a.dmg", helloBytes), ("b.dmg", helloBytes.set 0 105),
         ("key.pem", privateBytesPem seedC)] "a.dmg" "key.pem").1 =
        Except.ok (b64encode (echoSig seedC helloBytes),
          helloBytes.length) ∧
    (sign_file_with_ed25519 echoSig
        [("a.dmg", helloBytes), ("b.dmg", helloBytes.set 0 105),
         ("key.pem", privateBytesPem seedC)] "b.dmg" "key.pem").1 =
        Except.ok (b64encode (echoSig seedC (helloBytes.set 0 105)),
          (helloBytes.set 0 105).length) ∧
    b64encode (echoSig seedC helloBytes) ≠
      b64encode (echoSig seedC (helloBytes.set 0 105)) ∧
    eqVerify (idPub seedC) helloBytes (echoSig seedC helloBytes) = true ∧
    eqVerify (idPub seedC) (helloBytes.set 0 105)
      (echoSig seedC helloBytes) = false :=
  C8_single_byte_mutation_changes_signature echoSig eqVerify idPub seedC
    [("a.dmg", helloBytes), ("b.dmg", helloBytes.set 0 105),
     ("key.pem", privateBytesPem seedC)]
    "a.dmg" "b.dmg" "key.pem" (privateBytesPem seedC) helloBytes
    (helloBytes.set 0 105) 0 105 (by rfl)
    (load_pem_roundtrip seedC (by rfl) (by decide)) (by rfl) (by rfl)
    (by decide) rfl (by decide) (by decide) (by decide) (by decide)
    (by rfl) (by rfl)
